import Mathlib

/-!
Shallow embedding of the subscription-lifecycle component
`src/demos/sysmon-client/src/components/ObservableFetchQuery.js`.

The component (a React class component) is embedded as a state machine:
`Component` carries the `subscription` field, the React `state`
(`ViewState`), and the React-internal mounted flag. The three subscriber
callbacks registered in `invokeQuery` become the `handleEvent` transition,
dispatched through `setState`, which embeds React's class-component
semantics: a state update requested on an unmounted component is discarded
by React (it warns and does not apply the update), so `setState` is guarded
by the mounted flag. Payloads and delivered error values are kept abstract
as type parameters `α` and `ε`; JS error objects used by `render` are the
concrete `JsError`.
-/

set_option autoImplicit false

namespace ObservableFetchQuery

/-- A JavaScript error value as consumed by `render`: an object whose
`message` property may be absent (`none` embeds JS `undefined`). -/
structure JsError where
  message : Option String
deriving DecidableEq, Repr

/-- Value of `this.state.response`: the initial empty string `''` set by the
constructor, or the payload stored by the `next` callback. -/
inductive RespField (α : Type) where
  | emptyStr
  | payload (p : α)
deriving DecidableEq, Repr

/-- Value of `this.state.error`: the initial empty string `''` set by the
constructor, or the value stored by the `error` callback. -/
inductive ErrField (ε : Type) where
  | emptyStr
  | set (e : ε)
deriving DecidableEq, Repr

/-- Whether the error field holds a delivered error (is "set"). -/
def errIsSet {ε : Type} : ErrField ε → Bool
  | ErrField.emptyStr => false
  | ErrField.set _ => true

/-- The component's React state `\x7b response, complete, error \x7d`. -/
structure ViewState (α ε : Type) where
  response : RespField α
  complete : Bool
  error : ErrField ε
deriving DecidableEq, Repr

/-- The state assigned in the constructor:
`\x7b response: '', complete: false, error: '' \x7d`. -/
def initState (α ε : Type) : ViewState α ε :=
  { response := RespField.emptyStr, complete := false, error := ErrField.emptyStr }

/-- An opaque subscription handle (the value returned by `subscribe`,
exposing `unsubscribe()`). -/
structure SubHandle where
  id : Nat
deriving DecidableEq, Repr

/-- The component instance: the `subscription` field (`null` embeds as
`none`), the React state, and React's internal record of whether the
instance is currently mounted. -/
structure Component (α ε : Type) where
  subscription : Option SubHandle
  state : ViewState α ε
  mounted : Bool
deriving DecidableEq, Repr

/-- A freshly constructed, mounted instance before `componentDidMount`:
the constructor sets `subscription = null` and the initial state. -/
def initComponent (α ε : Type) : Component α ε :=
  { subscription := none, state := initState α ε, mounted := true }

/-- The component together with a count of how many times `unsubscribe()`
has been invoked on its handle (to express "released at most once"). -/
structure Sys (α ε : Type) where
  comp : Component α ε
  unsubCount : Nat
deriving DecidableEq, Repr

/-- A freshly constructed system: new component, no `unsubscribe` calls. -/
def initSys (α ε : Type) : Sys α ε :=
  { comp := initComponent α ε, unsubCount := 0 }

/-- A notification delivered by the observable feed to the subscriber
callbacks: `next(payload)`, `complete()`, or `error(e)`. -/
inductive Event (α ε : Type) where
  | next (p : α)
  | complete
  | error (e : ε)
deriving DecidableEq, Repr

/-- React class-component `this.setState`: the partial update is merged
into the state of a mounted instance; on an unmounted instance React
discards the update (it warns and does not mutate the state). -/
def setState {α ε : Type} (c : Component α ε) (f : ViewState α ε → ViewState α ε) :
    Component α ε :=
  if c.mounted then { c with state := f c.state } else c

/-- The bodies of the three callbacks registered in `invokeQuery`:
`next` stores the payload in `response`, `complete` sets `complete = true`,
`error` stores the error value in `error`. -/
def handleEvent {α ε : Type} : Event α ε → ViewState α ε → ViewState α ε
  | Event.next p, v => { v with response := RespField.payload p }
  | Event.complete, v => { v with complete := true }
  | Event.error e, v => { v with error := ErrField.set e }

/-- Delivery of one notification to the component: the registered callback
runs and calls `setState` with the corresponding partial update. -/
def deliver {α ε : Type} (s : Sys α ε) (ev : Event α ε) : Sys α ε :=
  { s with comp := setState s.comp (handleEvent ev) }

/-- Delivery of a finite sequence of notifications, in order. -/
def deliverAll {α ε : Type} (s : Sys α ε) (evs : List (Event α ε)) : Sys α ε :=
  evs.foldl deliver s

/-- The fetch options literal built in `invokeQuery`:
`\x7b method: 'post', mode: 'cors', headers: \x7b allow: 'post' \x7d \x7d`. -/
structure FetchOptions where
  method : String
  mode : String
  headers : List (String × String)
deriving DecidableEq, Repr

/-- The request description passed to `graphqlObserve`: endpoint url,
fetch options, query text, variable bindings, optional operation name. -/
structure GraphQLRequest where
  url : String
  options : FetchOptions
  query : String
  variableBindings : List (String × String)
  operation : Option String
deriving DecidableEq, Repr

/-- The query template literal in `invokeQuery` (braces written as their
character codes). -/
def queryText : String :=
  "\nquery \x7b\n  latest \x7b\n    timestamp\n    cpu \x7b\n      percent\n    \x7d\n  \x7d\n\x7d"

/-- The concrete request `invokeQuery` builds: the configured url, the post
options, the query text, empty variables, and `operation = null`. -/
def mkRequest (url : String) : GraphQLRequest :=
  { url := url
    options := { method := "post", mode := "cors", headers := [("allow", "post")] }
    query := queryText
    variableBindings := []
    operation := none }

/-- Modelled from the spec: the graphql-observable client
(`src/demos/sysmon-client/src/graphql-observable`, imported by the
component but not present in the sampled source). Per the spec's external
interface, `graphqlObserve` returns an observable whose `subscribe`
registers the next/complete/error callbacks and returns a cancellable
handle; per the spec's failure semantics, a request-construction failure is
surfaced via the on-error callback, not thrown: subscribing to an
observable built from a malformed request immediately invokes the error
callback with the failure, and still returns a handle. -/
structure Observable (ε : Type) where
  handle : SubHandle
  constructionFailure : Option ε
deriving DecidableEq, Repr

/-- The body of `invokeQuery`: build the request, call `graphqlObserve`
(the external source, passed as `observe`), and `subscribe` the three
callbacks, returning the subscription handle. Subscribing to an observable
carrying a construction failure delivers the failure to the error callback
at once. -/
def invokeQuery {α ε : Type} (observe : GraphQLRequest → Observable ε) (url : String)
    (s : Sys α ε) : SubHandle × Sys α ε :=
  match (observe (mkRequest url)).constructionFailure with
  | some e => ((observe (mkRequest url)).handle, deliver s (Event.error e))
  | none => ((observe (mkRequest url)).handle, s)

/-- Lifecycle hook `componentDidMount`:
`this.subscription = this.invokeQuery()`. -/
def componentDidMount {α ε : Type} (observe : GraphQLRequest → Observable ε) (url : String)
    (s : Sys α ε) : Sys α ε :=
  { (invokeQuery observe url s).2 with
    comp := { (invokeQuery observe url s).2.comp with
              subscription := some (invokeQuery observe url s).1 } }

/-- Lifecycle hook `componentWillUnmount`: if `this.subscription` is
truthy, call `unsubscribe()` (counted) and set the field to `null`;
otherwise do nothing. -/
def componentWillUnmount {α ε : Type} (s : Sys α ε) : Sys α ε :=
  match s.comp.subscription with
  | some _ =>
      { comp := { s.comp with subscription := none }, unsubCount := s.unsubCount + 1 }
  | none => s

/-- The JS method call `sub.unsubscribe()`: a TypeError is thrown when the
receiver is `null`, otherwise the call succeeds. -/
def unsubscribeCall (sub : Option SubHandle) : Except JsError Unit :=
  match sub with
  | none => Except.error { message := some "Cannot read properties of null" }
  | some _ => Except.ok ()

/-- Fault-explicit form of `componentWillUnmount`: the guard
`if (this.subscription)` ensures `unsubscribe()` is only called on a
non-null receiver, so no TypeError can escape. -/
def componentWillUnmountE {α ε : Type} (s : Sys α ε) : Except JsError (Sys α ε) :=
  if s.comp.subscription.isSome then
    match unsubscribeCall s.comp.subscription with
    | Except.error t => Except.error t
    | Except.ok _ =>
        Except.ok
          { comp := { s.comp with subscription := none }, unsubCount := s.unsubCount + 1 }
  else Except.ok s

/-- Full deactivation: React runs `componentWillUnmount` and then the
instance is unmounted (subsequent `setState` calls are discarded). -/
def unmount {α ε : Type} (s : Sys α ε) : Sys α ε :=
  let t := componentWillUnmount s
  { t with comp := { t.comp with mounted := false } }

/-- The JS property access `err.message` performed by `render`: on the
initial empty string `''` it yields `undefined` (no fault — strings are
boxed), and on an error object it yields the object's `message` property,
which may itself be absent. -/
def messageProp : ErrField JsError → Except JsError (Option String)
  | ErrField.emptyStr => Except.ok none
  | ErrField.set e => Except.ok e.message

/-- The three text fragments produced by `render`: the serialized response,
the completion flag as text, and the error message (`none` embeds JS
`undefined`, which React renders as nothing). -/
structure Rendered where
  responseText : String
  completeText : String
  errorText : Option String
deriving DecidableEq, Repr

/-- The `render` method: `JSON.stringify(response)` (serialization of the
abstract payload passed in as `stringify`), `complete ? 'true' : 'false'`,
and `error.message`. Fallible because the property access is. -/
def render {α : Type} (stringify : RespField α → String) (v : ViewState α JsError) :
    Except JsError Rendered :=
  match messageProp v.error with
  | Except.error t => Except.error t
  | Except.ok m =>
      Except.ok
        { responseText := stringify v.response
          completeText := if v.complete then "true" else "false"
          errorText := m }

/-! Basic lemmas about the transition functions. -/

theorem setState_unmounted {α ε : Type} (c : Component α ε)
    (f : ViewState α ε → ViewState α ε) (h : c.mounted = false) : setState c f = c := by
  simp [setState, h]

theorem deliver_mounted {α ε : Type} (s : Sys α ε) (ev : Event α ε) :
    (deliver s ev).comp.mounted = s.comp.mounted := by
  simp only [deliver, setState]
  split <;> rfl

theorem deliver_subscription {α ε : Type} (s : Sys α ε) (ev : Event α ε) :
    (deliver s ev).comp.subscription = s.comp.subscription := by
  simp only [deliver, setState]
  split <;> rfl

theorem deliver_unmounted {α ε : Type} (s : Sys α ε) (ev : Event α ε)
    (h : s.comp.mounted = false) : deliver s ev = s := by
  unfold deliver
  rw [setState_unmounted _ _ h]

theorem unmount_mounted {α ε : Type} (s : Sys α ε) : (unmount s).comp.mounted = false := rfl

theorem deliverAll_unmounted {α ε : Type} (s : Sys α ε) (evs : List (Event α ε))
    (h : s.comp.mounted = false) : deliverAll s evs = s := by
  induction evs generalizing s with
  | nil => rfl
  | cons ev evs ih =>
      show List.foldl deliver (deliver s ev) evs = s
      rw [deliver_unmounted s ev h]
      exact ih s h

theorem deliverAll_next_response {α ε : Type} (s : Sys α ε) (p : α) (ps : List α)
    (hm : s.comp.mounted = true) :
    (deliverAll s ((p :: ps).map Event.next)).comp.state.response
      = RespField.payload ((p :: ps).getLast (List.cons_ne_nil p ps)) := by
  induction ps generalizing s p with
  | nil => simp [deliverAll, deliver, setState, handleEvent, hm, List.getLast]
  | cons q t ih =>
      have h1 : (deliver s (Event.next p)).comp.mounted = true := by
        rw [deliver_mounted]; exact hm
      have step : deliverAll s ((p :: q :: t).map Event.next)
          = deliverAll (deliver s (Event.next p)) ((q :: t).map Event.next) := rfl
      rw [step, ih (deliver s (Event.next p)) q h1]
      rfl

/-- C1: after `deactivate()` (`componentWillUnmount` followed by the
unmount), no sequence of callbacks delivered afterwards — next, complete or
error, including notifications already in flight at release time — changes
the system at all: post-release events are discarded by `setState` rather
than mutating released state. -/
theorem post_release_events_discarded {α ε : Type} (s : Sys α ε) (evs : List (Event α ε)) :
    deliverAll (unmount s) evs = unmount s :=
  deliverAll_unmounted (unmount s) evs (unmount_mounted s)

/-- C3: for every finite nonempty sequence of next-notifications delivered
to a mounted (active) component, the `response` field afterwards holds the
payload of the most recently delivered notification. -/
theorem last_payload_is_most_recent {α ε : Type} (s : Sys α ε) (ps : List α)
    (hm : s.comp.mounted = true) (hne : ps ≠ []) :
    (deliverAll s (ps.map Event.next)).comp.state.response
      = RespField.payload (ps.getLast hne) := by
  cases ps with
  | nil => exact absurd rfl hne
  | cons p rest => exact deliverAll_next_response s p rest hm

/-- Witness for C3: delivering payloads 1, 2, 3 to a fresh component leaves
`response` holding 3. -/
theorem last_payload_is_most_recent_witness :
    (deliverAll (initSys Nat JsError) ([1, 2, 3].map Event.next)).comp.state.response
      = RespField.payload 3 :=
  last_payload_is_most_recent (initSys Nat JsError) [1, 2, 3] rfl (by decide)

/-- C4: deactivating twice in succession releases the handle at most once:
the second deactivation is a no-op (the handle was cleared), one
deactivation performs at most one `unsubscribe` call, the handle is cleared
by deactivation, and when a handle is actually held the first deactivation
performs exactly one `unsubscribe` call. -/
theorem deactivate_twice_releases_once {α ε : Type} (s : Sys α ε) :
    unmount (unmount s) = unmount s
    ∧ (unmount s).unsubCount ≤ s.unsubCount + 1
    ∧ (unmount s).comp.subscription = none
    ∧ (∀ h : SubHandle, s.comp.subscription = some h →
        (unmount s).unsubCount = s.unsubCount + 1) := by
  refine ⟨?_, ?_, ?_, ?_⟩
  · unfold unmount componentWillUnmount
    cases h : s.comp.subscription <;> simp [h]
  · unfold unmount componentWillUnmount
    cases h : s.comp.subscription <;> simp [h]
  · unfold unmount componentWillUnmount
    cases h : s.comp.subscription <;> simp [h]
  · intro hh h
    unfold unmount componentWillUnmount
    simp [h]

/-- A source that returns handle 7 and no construction failure. -/
def okObserve : GraphQLRequest → Observable JsError :=
  fun _ => { handle := { id := 7 }, constructionFailure := none }

/-- A fresh component after a successful `componentDidMount`: it holds
handle 7. -/
def sysWithHandle : Sys Nat JsError :=
  componentDidMount okObserve "/sysmon/graphql" (initSys Nat JsError)

/-- Witness for C4: on a component holding a handle, deactivation performs
exactly one `unsubscribe` call. -/
theorem deactivate_twice_releases_once_witness :
    (unmount sysWithHandle).unsubCount = sysWithHandle.unsubCount + 1 :=
  (deactivate_twice_releases_once sysWithHandle).2.2.2 { id := 7 } rfl

/-- C5: deactivating a component on which `componentDidMount` never ran is
a no-op — the guard sees `subscription = null`, so nothing is released, no
state changes, and the fault-explicit form returns without a fault. -/
theorem deactivate_without_activate_noop (α ε : Type) :
    componentWillUnmountE (initSys α ε) = Except.ok (initSys α ε)
    ∧ componentWillUnmount (initSys α ε) = initSys α ε :=
  ⟨rfl, rfl⟩

/-- C2: when request construction fails during activation, the failure is
delivered through the on-error callback and lands in the state's `error`
field; `componentDidMount` is a total function of the system — no exception
propagates to its caller. -/
theorem construction_failure_surfaced_on_error {α ε : Type} (s : Sys α ε)
    (observe : GraphQLRequest → Observable ε) (url : String) (e : ε)
    (hm : s.comp.mounted = true)
    (hfail : (observe (mkRequest url)).constructionFailure = some e) :
    (componentDidMount observe url s).comp.state.error = ErrField.set e := by
  unfold componentDidMount invokeQuery
  rw [hfail]
  simp [deliver, setState, handleEvent, hm]

/-- A source for which every request is a construction failure. -/
def failingObserve : GraphQLRequest → Observable JsError :=
  fun _ =>
    { handle := { id := 0 }
      constructionFailure := some { message := some "malformed request" } }

/-- Witness for C2: mounting against a failing source stores the failure in
the `error` field. -/
theorem construction_failure_surfaced_on_error_witness :
    (componentDidMount failingObserve "/bad" (initSys Nat JsError)).comp.state.error
      = ErrField.set { message := some "malformed request" } :=
  construction_failure_surfaced_on_error (initSys Nat JsError) failingObserve "/bad"
    { message := some "malformed request" } rfl rfl

/-- C6: terminal flags are sticky — delivering any further notification to
a state with `complete = true` leaves `complete = true`, and to a state
with a set `error` leaves the error set. -/
theorem terminal_flags_sticky {α ε : Type} (s : Sys α ε) (ev : Event α ε) :
    (s.comp.state.complete = true → (deliver s ev).comp.state.complete = true)
    ∧ (errIsSet s.comp.state.error = true → errIsSet (deliver s ev).comp.state.error = true) := by
  constructor
  · intro hc
    simp only [deliver, setState]
    split
    · cases ev <;> simp [handleEvent, hc]
    · exact hc
  · intro he
    simp only [deliver, setState]
    split
    · cases ev <;> simp [handleEvent, errIsSet, he] <;> exact he
    · exact he

/-- A component that has seen a payload, a completion and an error. -/
def sysTerminal : Sys Nat JsError :=
  deliverAll sysWithHandle
    [Event.next 9, Event.complete, Event.error { message := some "boom" }]

/-- Witness for C6: delivering a further payload to a terminal state leaves
`complete = true` and the error set. -/
theorem terminal_flags_sticky_witness :
    (deliver sysTerminal (Event.next 5)).comp.state.complete = true
    ∧ errIsSet (deliver sysTerminal (Event.next 5)).comp.state.error = true :=
  ⟨(terminal_flags_sticky sysTerminal (Event.next 5)).1 rfl,
   (terminal_flags_sticky sysTerminal (Event.next 5)).2 rfl⟩

/-- C7: the component holds zero or one handle: `subscription` is `null` on
construction, holds exactly the handle returned by the source after
`componentDidMount`, is untouched by every notification, and is `null`
again after deactivation. -/
theorem zero_or_one_handle {α ε : Type} (observe : GraphQLRequest → Observable ε)
    (url : String) (s : Sys α ε) (ev : Event α ε) :
    (initSys α ε).comp.subscription = none
    ∧ (componentDidMount observe url s).comp.subscription
        = some (observe (mkRequest url)).handle
    ∧ (deliver s ev).comp.subscription = s.comp.subscription
    ∧ (unmount s).comp.subscription = none := by
  refine ⟨rfl, ?_, deliver_subscription s ev, ?_⟩
  · unfold componentDidMount invokeQuery
    cases h : (observe (mkRequest url)).constructionFailure <;> simp [h]
  · unfold unmount componentWillUnmount
    cases h : s.comp.subscription <;> simp [h]

/-- C8: on a mounted component, the complete notification sets only
`complete` (response and error are unchanged), and the error notification
sets only `error` (response and complete are unchanged). -/
theorem complete_and_error_frame {α ε : Type} (s : Sys α ε) (e : ε)
    (hm : s.comp.mounted = true) :
    (deliver s Event.complete).comp.state = { s.comp.state with complete := true }
    ∧ (deliver s (Event.error e)).comp.state
        = { s.comp.state with error := ErrField.set e } := by
  constructor <;> simp [deliver, setState, handleEvent, hm]

/-- The spec scenario state: activate, then deliver payload 42. -/
def sysAfterPayload : Sys Nat JsError :=
  deliver sysWithHandle (Event.next 42)

/-- Witness for C8: in the scenario activate → payload 42, the complete
notification sets only `complete` and a late error sets only `error`. -/
theorem complete_and_error_frame_witness :
    (deliver sysAfterPayload Event.complete).comp.state
        = { sysAfterPayload.comp.state with complete := true }
    ∧ (deliver sysAfterPayload (Event.error { message := some "late" })).comp.state
        = { sysAfterPayload.comp.state with
            error := ErrField.set { message := some "late" } } :=
  complete_and_error_frame sysAfterPayload { message := some "late" } rfl

/-- C9: `render` never faults: for every view state — including the
never-errored state, where `error.message` is the `undefined` message
property of the empty string, and error objects whose `message` is absent —
rendering produces a result. -/
theorem render_never_faults {α : Type} (stringify : RespField α → String)
    (v : ViewState α JsError) :
    ∃ r : Rendered, render stringify v = Except.ok r := by
  cases hv : v.error with
  | emptyStr =>
      refine ⟨{ responseText := stringify v.response
                completeText := if v.complete then "true" else "false"
                errorText := none }, ?_⟩
      simp [render, messageProp, hv]
  | set e =>
      refine ⟨{ responseText := stringify v.response
                completeText := if v.complete then "true" else "false"
                errorText := e.message }, ?_⟩
      simp [render, messageProp, hv]

/-- C10: the constructor's initial state is exactly
`\x7b response: '', complete: false, error: '' \x7d` — both `response` and
`error` start as the empty string rather than an absent value — and the
initial rendered error message is the `undefined` message property of the
empty string. -/
theorem initial_state_exact (α : Type) (stringify : RespField α → String) :
    (initComponent α JsError).state
        = { response := RespField.emptyStr, complete := false,
            error := ErrField.emptyStr }
    ∧ Except.map Rendered.errorText (render stringify (initComponent α JsError).state)
        = Except.ok none :=
  ⟨rfl, rfl⟩

end ObservableFetchQuery
